import Mathlib

/-!
Shallow embedding of the survey-analytics aggregation of the SMS admin
application, together with proofs about the claims of its specification.

The embedded code is:
  * `getSurveyAnalytics` from `src/server/storage.ts` (the aggregation
    itself, including survey lookup, response filtering, question parsing
    and the per-question tally);
  * the Express route `GET /api/surveys/:id/analytics` registered in
    `registerRoutes` (`src/unnamed/part_010`), modelled by
    `expressAnalyticsStatus`;
  * the serverless handler for the same path in `src/api/index.ts`,
    modelled by `serverlessAnalyticsStatus`.

Stored JSONB columns are modelled at the boundary of `JSON.parse`: a
field carries either its parsed value or a marker that parsing fails
(JavaScript `JSON.parse` throwing), since the exact byte-level parser is
external to the repository.  JavaScript string primitives used by the
aggregation (`split(',')`, `trim()`, object key enumeration order) are
modelled by executable Lean functions on `String` defined below.
-/

namespace SMSAdmin

/-- JavaScript `a || b` for strings, where `a` may be absent
(`undefined`) and the empty string is falsy.  Used for
`question.text || question.question || ...`, `question.type || 'text'`. -/
def strOr (a : Option String) (b : String) : String :=
  match a with
  | some s => if s = "" then b else s
  | none => b

/-- Characters removed by JavaScript `String.prototype.trim` (the ASCII
whitespace subset; the answers handled by the aggregator are ASCII). -/
def isJsWhitespace (c : Char) : Bool :=
  c = ' ' || c = '\t' || c = '\n' || c = '\r'

/-- JavaScript `s.trim()`: strip leading and trailing whitespace. -/
def jsTrim (s : String) : String :=
  ⟨((s.data.dropWhile isJsWhitespace).reverse.dropWhile isJsWhitespace).reverse⟩

/-- Accumulator-based splitting of a character list at commas. -/
def splitCommaAux : List Char → List Char → List String
  | [], acc => [⟨acc.reverse⟩]
  | c :: rest, acc =>
    if c = ',' then ⟨acc.reverse⟩ :: splitCommaAux rest []
    else splitCommaAux rest (c :: acc)

/-- JavaScript `s.split(',')`.  As in JavaScript, the result is never
empty: `"".split(',')` is `[""]` and a trailing comma yields `""`. -/
def jsSplitComma (s : String) : List String := splitCommaAux s.data []

/-- The tokens a checkbox answer contributes to the tally:
`answer.split(',').map(a => a.trim())`, keeping only truthy (non-empty)
tokens, as in the `if (checkboxAnswer)` guard of the source. -/
def checkboxTokens (answer : String) : List String :=
  ((jsSplitComma answer).map jsTrim).filter (fun t => t ≠ "")

/-- Decimal value of a digit string (used only on all-digit strings). -/
def charsToNat (l : List Char) : Nat :=
  l.foldl (fun n c => 10 * n + (c.toNat - 48)) 0

/-- Whether a JavaScript object key is an array index in the sense of
the ECMAScript specification: the canonical decimal form of an integer
below 2^32 - 1.  `Object.entries` enumerates such keys first, in
ascending numeric order, before the remaining keys in insertion order. -/
def isArrayIndexKey (s : String) : Bool :=
  !s.data.isEmpty && s.data.all Char.isDigit
    && (s == "0" || s.data.head? != some '0')
    && charsToNat s.data < 4294967295

/-- Numeric value of a key for ordering array-index keys. -/
def jsKeyVal (s : String) : Nat := charsToNat s.data

/-- One survey question as stored inside the `questions` JSONB array.
Fields are optional because the aggregator defends against their absence
(`question.text || question.question || ...`, `question.type || 'text'`,
`question.options || []`). -/
structure Question where
  text : Option String
  question : Option String
  qtype : Option String
  options : Option (List String)
deriving DecidableEq

/-- The stored `questions` column of a survey, modelled at the
`JSON.parse` boundary. -/
inductive QuestionsField where
  /-- The stored value is a JSON array of questions (either a JSONB
  array returned by the driver, or a string parsing to an array). -/
  | jsonArray (qs : List Question)
  /-- The stored value is a string on which `JSON.parse` throws. -/
  | badString
  /-- The stored value is a string parsing to a non-array JSON value:
  `questions.map` then throws a `TypeError`. -/
  | stringNonArray
  /-- The stored value is neither a string nor an array (the source
  falls back to `[]`). -/
  | otherValue
deriving DecidableEq

/-- The `questions` list the aggregator works with, following the
`typeof survey.questions === "string" ? JSON.parse(...) : Array.isArray(...)
? ... : []` ternary wrapped in try/catch: `none` means the later
`questions.map` throws (non-array parse result), otherwise the list. -/
def parsedQuestions : QuestionsField → Option (List Question)
  | .jsonArray qs => some qs
  | .badString => some []
  | .stringNonArray => none
  | .otherValue => some []

/-- A row of the `surveys` table (fields not read by the aggregation are
omitted). -/
structure Survey where
  id : Int
  title : String
  questions : QuestionsField
deriving DecidableEq

/-- The stored `responses` column of a survey response, modelled at the
`JSON.parse` boundary. -/
inductive AnswersField where
  /-- A JSON object mapping stringified question positions to answer
  strings.  Keys are unique (`JSON.parse` keeps one binding per key). -/
  | obj (entries : List (String × String))
  /-- A string on which `JSON.parse` throws, or a parsed value that is
  not an object: the row contributes to no tally
  (`answersObj && answersObj[questionId]` is never truthy). -/
  | bad
deriving DecidableEq

/-- A row of the `survey_responses` table (fields not read by the
aggregation are omitted; `survey_id` is a nullable column). -/
structure SurveyResponse where
  id : Int
  surveyId : Option Int
  answers : AnswersField
deriving DecidableEq

/-- Property lookup `answersObj[questionId]` on a parsed answers object. -/
def jsLookup (entries : List (String × String)) (k : String) : Option String :=
  (entries.find? (fun p => p.1 = k)).map (fun p => p.2)

/-- The raw answer of a response for a question key, before the
truthiness check: `none` when the key is absent or the row's answers
failed to parse. -/
def rawAnswer (r : SurveyResponse) (qid : String) : Option String :=
  match r.answers with
  | .obj entries => jsLookup entries qid
  | .bad => none

/-- The answer the aggregator actually uses: the guard
`if (answersObj && answersObj[questionId])` drops absent answers and the
falsy empty string. -/
def extractAnswer (r : SurveyResponse) (qid : String) : Option String :=
  match rawAnswer r qid with
  | some a => if a = "" then none else some a
  | none => none

/-- The `allAnswers` array collected for one question: each answered
response contributes its comma-split trimmed tokens for a checkbox
question, and the answer itself otherwise. -/
def allAnswersFor (questionType qid : String) (rs : List SurveyResponse) :
    List String :=
  rs.flatMap (fun r =>
    match extractAnswer r qid with
    | some a => if questionType = "checkbox" then checkboxTokens a else [a]
    | none => [])

/-- The `textResponses` array collected for one question: the raw
(truthy) answers in response order. -/
def textResponsesFor (qid : String) (rs : List SurveyResponse) : List String :=
  rs.filterMap (fun r => extractAnswer r qid)

/-- One step of `answerCounts[answer] = (answerCounts[answer] || 0) + 1`
on the tally object, represented as an insertion-ordered association
list: bump an existing key in place, or append a new key with count 1. -/
def bump : List (String × Nat) → String → List (String × Nat)
  | [], a => [(a, 1)]
  | (k, n) :: rest, a =>
    if k = a then (k, n + 1) :: rest else (k, n) :: bump rest a

/-- The `answerCounts` tally object in insertion (first-seen) order. -/
def tally (l : List String) : List (String × Nat) :=
  l.foldl bump []

/-- Stable insertion into a list ordered by ascending key value. -/
def insertAsc (x : String × Nat) : List (String × Nat) → List (String × Nat)
  | [] => [x]
  | y :: ys =>
    if jsKeyVal x.1 ≤ jsKeyVal y.1 then x :: y :: ys else y :: insertAsc x ys

/-- Sort entries by ascending numeric key value (the order in which
`Object.entries` reports array-index keys). -/
def sortAscByKey (l : List (String × Nat)) : List (String × Nat) :=
  l.foldr insertAsc []

/-- Enumeration order of `Object.entries(answerCounts)`: keys that are
array indices first, in ascending numeric order, then the remaining keys
in insertion order (ECMAScript ordinary own property key order). -/
def jsObjectEntries (m : List (String × Nat)) : List (String × Nat) :=
  sortAscByKey (m.filter (fun p => isArrayIndexKey p.1))
    ++ m.filter (fun p => !isArrayIndexKey p.1)

/-- Stable insertion into a list ordered by descending count: an element
is placed before the first strictly smaller count, after equal counts. -/
def insertDesc (x : String × Nat) : List (String × Nat) → List (String × Nat)
  | [] => [x]
  | y :: ys =>
    if y.2 ≤ x.2 then x :: y :: ys else y :: insertDesc x ys

/-- JavaScript `.sort((a, b) => b.count - a.count)`: `Array.prototype.sort`
is stable, so the result is the unique stable descending-by-count
reordering, realised here by a stable insertion sort. -/
def sortByCountDesc (l : List (String × Nat)) : List (String × Nat) :=
  l.foldr insertDesc []

/-- The per-question analytics record.  `responses` entries are
`{answer, count}` pairs; `textResponses` is `undefined` (`none`) for
non-text question types. -/
structure QuestionAnalytics where
  questionId : String
  questionText : String
  questionType : String
  options : List String
  responses : List (String × Nat)
  textResponses : Option (List String)
deriving DecidableEq

/-- The `questionId` of the question at 0-based index `i`:
`(index + 1).toString()`. -/
def questionIdOf (i : Nat) : String := toString (i + 1)

/-- The effective question type: `question.type || 'text'`. -/
def questionTypeOf (q : Question) : String := strOr q.qtype "text"

/-- The displayed question text:
`question.text || question.question || 'Question <id>'`. -/
def questionTextOf (q : Question) (qid : String) : String :=
  strOr q.text (strOr q.question ("Question " ++ qid))

/-- The analytics entry for one question: the body of the
`questions.map((question, index) => ...)` callback of the source. -/
def analyzeQuestion (q : Question) (index : Nat) (rs : List SurveyResponse) :
    QuestionAnalytics :=
  let questionId := questionIdOf index
  let questionType := questionTypeOf q
  let allAnswers := allAnswersFor questionType questionId rs
  let textResponses := textResponsesFor questionId rs
  let responseData := sortByCountDesc (jsObjectEntries (tally allAnswers))
  { questionId := questionId
    questionText := questionTextOf q questionId
    questionType := questionType
    options := q.options.getD []
    responses := responseData
    textResponses :=
      if questionType = "text" || questionType = "textarea" then
        some (textResponses.take 10)
      else none }

/-- The aggregation result returned by `getSurveyAnalytics`. -/
structure SurveyAnalytics where
  survey : Survey
  totalResponses : Nat
  questionAnalytics : List QuestionAnalytics
deriving DecidableEq

/-- Lookup of a survey by id:
`db.select().from(surveys).where(eq(surveys.id, id)).limit(1)`. -/
def getSurvey (surveys : List Survey) (id : Int) : Option Survey :=
  surveys.find? (fun s => s.id = id)

/-- The response rows of one survey:
`db.select(...).from(surveyResponses).where(eq(surveyResponses.surveyId, surveyId))`.
A row whose nullable `survey_id` is NULL matches no survey. -/
def responsesFor (responses : List SurveyResponse) (surveyId : Int) :
    List SurveyResponse :=
  responses.filter (fun r => r.surveyId = some surveyId)

/-- The aggregation `getSurveyAnalytics` of `src/server/storage.ts`.
It throws (here: `Except.error`) when the survey id matches no survey,
and when `survey.questions` is a string parsing to a non-array value
(the `questions.map` TypeError propagated by the outer catch). -/
def getSurveyAnalytics (surveys : List Survey)
    (responses : List SurveyResponse) (surveyId : Int) :
    Except String SurveyAnalytics :=
  match getSurvey surveys surveyId with
  | none => .error ("Survey with ID " ++ toString surveyId ++ " not found")
  | some survey =>
    let rs := responsesFor responses surveyId
    match parsedQuestions survey.questions with
    | none => .error "questions.map is not a function"
    | some questions =>
      .ok { survey := survey
            totalResponses := rs.length
            questionAnalytics :=
              questions.mapIdx (fun i q => analyzeQuestion q i rs) }

/-- HTTP status produced by the Express route
`GET /api/surveys/:id/analytics` of `registerRoutes`
(`src/unnamed/part_010`) after authentication: 400 when `parseInt` of the
path parameter is NaN (`idParam = none`), otherwise the route calls
`storage.getSurveyAnalytics` and maps any thrown error to 500. -/
def expressAnalyticsStatus (surveys : List Survey)
    (responses : List SurveyResponse) (idParam : Option Int) : Nat :=
  match idParam with
  | none => 400
  | some surveyId =>
    match getSurveyAnalytics surveys responses surveyId with
    | .error _ => 500
    | .ok _ => 200

/-- HTTP status produced by the serverless handler for
`GET /api/surveys/.../analytics` in `src/api/index.ts`: 400 for a NaN
id, 404 when the survey lookup returns no row, 500 when the inline
aggregation throws (`questions.map` on a non-array parse result),
otherwise 200. -/
def serverlessAnalyticsStatus (surveys : List Survey)
    (responses : List SurveyResponse) (idParam : Option Int) : Nat :=
  match idParam with
  | none => 400
  | some surveyId =>
    match getSurvey surveys surveyId with
    | none => 404
    | some survey =>
      match parsedQuestions survey.questions with
      | none => 500
      | some _ => 200

/-- Total count reported for an answer string in a `responses` entry
list (0 when the answer does not occur). -/
def keyCount (m : List (String × Nat)) (a : String) : Nat :=
  ((m.filter (fun p => p.1 = a)).map (fun p => p.2)).sum

/-- Whether a response row's `responses` column parsed to an object (the
rows that can contribute to a tally). -/
def hasParsedAnswers (r : SurveyResponse) : Bool :=
  match r.answers with
  | .obj _ => true
  | .bad => false

end SMSAdmin

namespace SMSAdmin

theorem keyCount_nil (a : String) : keyCount [] a = 0 := rfl

theorem keyCount_cons (p : String × Nat) (m : List (String × Nat)) (a : String) :
    keyCount (p :: m) a = (if p.1 = a then p.2 else 0) + keyCount m a := by
  by_cases h : p.1 = a <;> simp [keyCount, List.filter_cons, h]

theorem keyCount_bump (m : List (String × Nat)) (a b : String) :
    keyCount (bump m a) b = keyCount m b + (if a = b then 1 else 0) := by
  induction m with
  | nil =>
    by_cases h : a = b <;> simp [bump, keyCount_cons, keyCount_nil, h]
  | cons p m ih =>
    obtain ⟨k, n⟩ := p
    by_cases hka : k = a
    · rw [show bump ((k, n) :: m) a = (k, n + 1) :: m from by simp [bump, hka]]
      rw [keyCount_cons, keyCount_cons]
      by_cases hkb : k = b
      · have hab : a = b := hka.symm.trans hkb
        simp only [hkb, if_true, hab]
        omega
      · have hab : ¬a = b := fun h => hkb (hka.trans h)
        simp [hkb, hab]
    · rw [show bump ((k, n) :: m) a = (k, n) :: bump m a from by simp [bump, hka]]
      rw [keyCount_cons, keyCount_cons, ih]
      omega

theorem keyCount_foldl (l : List String) (acc : List (String × Nat)) (b : String) :
    keyCount (l.foldl bump acc) b = keyCount acc b + l.count b := by
  induction l generalizing acc with
  | nil => simp
  | cons a l ih =>
    rw [List.foldl_cons, ih, keyCount_bump, List.count_cons]
    by_cases h : a = b <;> simp [h] <;> omega

theorem keyCount_tally (l : List String) (b : String) :
    keyCount (tally l) b = l.count b := by
  have h := keyCount_foldl l [] b
  simpa [tally, keyCount_nil] using h

theorem keyCount_perm {m₁ m₂ : List (String × Nat)} (h : m₁.Perm m₂) (a : String) :
    keyCount m₁ a = keyCount m₂ a := by
  unfold keyCount
  exact ((h.filter _).map _).sum_eq

theorem insertAsc_perm (x : String × Nat) (l : List (String × Nat)) :
    (insertAsc x l).Perm (x :: l) := by
  induction l with
  | nil => exact List.Perm.refl _
  | cons y ys ih =>
    by_cases h : jsKeyVal x.1 ≤ jsKeyVal y.1
    · simp [insertAsc, h]
    · simp only [insertAsc, h, if_false]
      exact (ih.cons y).trans (List.Perm.swap x y ys)

theorem sortAscByKey_perm (l : List (String × Nat)) : (sortAscByKey l).Perm l := by
  induction l with
  | nil => exact List.Perm.refl _
  | cons x xs ih =>
    exact (insertAsc_perm x (sortAscByKey xs)).trans (ih.cons x)

theorem insertDesc_perm (x : String × Nat) (l : List (String × Nat)) :
    (insertDesc x l).Perm (x :: l) := by
  induction l with
  | nil => exact List.Perm.refl _
  | cons y ys ih =>
    by_cases h : y.2 ≤ x.2
    · simp [insertDesc, h]
    · simp only [insertDesc, h, if_false]
      exact (ih.cons y).trans (List.Perm.swap x y ys)

theorem sortByCountDesc_perm (l : List (String × Nat)) :
    (sortByCountDesc l).Perm l := by
  induction l with
  | nil => exact List.Perm.refl _
  | cons x xs ih =>
    exact (insertDesc_perm x (sortByCountDesc xs)).trans (ih.cons x)

theorem jsObjectEntries_perm (m : List (String × Nat)) :
    (jsObjectEntries m).Perm m := by
  unfold jsObjectEntries
  exact ((sortAscByKey_perm _).append_right _).trans (List.filter_append_perm _ m)

theorem responses_def (q : Question) (i : Nat) (rs : List SurveyResponse) :
    (analyzeQuestion q i rs).responses
      = sortByCountDesc (jsObjectEntries (tally
          (allAnswersFor (questionTypeOf q) (questionIdOf i) rs))) := rfl

theorem keyCount_responses (q : Question) (i : Nat) (rs : List SurveyResponse)
    (a : String) :
    keyCount (analyzeQuestion q i rs).responses a
      = (allAnswersFor (questionTypeOf q) (questionIdOf i) rs).count a := by
  rw [responses_def,
    keyCount_perm ((sortByCountDesc_perm _).trans (jsObjectEntries_perm _)) a,
    keyCount_tally]

end SMSAdmin

namespace SMSAdmin

theorem mem_insertDesc {x y : String × Nat} {l : List (String × Nat)} :
    y ∈ insertDesc x l ↔ y = x ∨ y ∈ l := by
  induction l with
  | nil => simp [insertDesc]
  | cons z zs ih =>
    by_cases h : z.2 ≤ x.2
    · simp [insertDesc, h]
    · simp only [insertDesc, h, if_false, List.mem_cons, ih]
      tauto

theorem pairwise_insertDesc {x : String × Nat} {l : List (String × Nat)}
    (h : l.Pairwise (fun a b => b.2 ≤ a.2)) :
    (insertDesc x l).Pairwise (fun a b => b.2 ≤ a.2) := by
  induction l with
  | nil => simp [insertDesc]
  | cons z zs ih =>
    rcases List.pairwise_cons.mp h with ⟨hz, hzs⟩
    by_cases hc : z.2 ≤ x.2
    · simp only [insertDesc, hc, if_true]
      refine List.pairwise_cons.mpr ⟨?_, h⟩
      intro w hw
      rcases List.mem_cons.mp hw with hwz | hwzs
      · exact hwz ▸ hc
      · exact le_trans (hz w hwzs) hc
    · simp only [insertDesc, hc, if_false]
      refine List.pairwise_cons.mpr ⟨?_, ih hzs⟩
      intro w hw
      rcases mem_insertDesc.mp hw with hwx | hwzs
      · exact hwx ▸ le_of_not_le hc
      · exact hz w hwzs

theorem pairwise_sortByCountDesc (l : List (String × Nat)) :
    (sortByCountDesc l).Pairwise (fun a b => b.2 ≤ a.2) := by
  induction l with
  | nil => simp [sortByCountDesc]
  | cons x xs ih => exact pairwise_insertDesc ih

theorem filter_insertDesc (x : String × Nat) (l : List (String × Nat)) (c : Nat) :
    (insertDesc x l).filter (fun p => p.2 = c)
      = if x.2 = c then x :: l.filter (fun p => p.2 = c)
        else l.filter (fun p => p.2 = c) := by
  induction l with
  | nil =>
    by_cases h : x.2 = c <;> simp [insertDesc, List.filter_cons, h]
  | cons z zs ih =>
    by_cases hc : z.2 ≤ x.2
    · simp only [insertDesc, hc, if_true]
      by_cases h : x.2 = c <;> simp [List.filter_cons, h]
    · simp only [insertDesc, hc, if_false]
      by_cases hz : z.2 = c
      · have hx : ¬x.2 = c := by omega
        simp [List.filter_cons, hz, hx, ih]
      · simp [List.filter_cons, hz, ih]

theorem filter_sortByCountDesc (l : List (String × Nat)) (c : Nat) :
    (sortByCountDesc l).filter (fun p => p.2 = c)
      = l.filter (fun p => p.2 = c) := by
  induction l with
  | nil => rfl
  | cons x xs ih =>
    show (insertDesc x (sortByCountDesc xs)).filter (fun p => p.2 = c) = _
    rw [filter_insertDesc, ih, List.filter_cons]
    by_cases h : x.2 = c <;> simp [h]

end SMSAdmin

namespace SMSAdmin

theorem allAnswersFor_cons (t qid : String) (r : SurveyResponse)
    (rs : List SurveyResponse) :
    allAnswersFor t qid (r :: rs)
      = (match extractAnswer r qid with
         | some a => if t = "checkbox" then checkboxTokens a else [a]
         | none => []) ++ allAnswersFor t qid rs := by
  simp [allAnswersFor]

theorem allAnswersFor_append (t qid : String) (rs₁ rs₂ : List SurveyResponse) :
    allAnswersFor t qid (rs₁ ++ rs₂)
      = allAnswersFor t qid rs₁ ++ allAnswersFor t qid rs₂ := by
  simp [allAnswersFor]

theorem textResponsesFor_append (qid : String) (rs₁ rs₂ : List SurveyResponse) :
    textResponsesFor qid (rs₁ ++ rs₂)
      = textResponsesFor qid rs₁ ++ textResponsesFor qid rs₂ := by
  simp [textResponsesFor]

theorem analyzeQuestion_congr (q : Question) (idx : Nat)
    (rs₁ rs₂ : List SurveyResponse)
    (h1 : allAnswersFor (questionTypeOf q) (questionIdOf idx) rs₁
        = allAnswersFor (questionTypeOf q) (questionIdOf idx) rs₂)
    (h2 : textResponsesFor (questionIdOf idx) rs₁
        = textResponsesFor (questionIdOf idx) rs₂) :
    analyzeQuestion q idx rs₁ = analyzeQuestion q idx rs₂ := by
  simp only [analyzeQuestion]
  rw [h1, h2]

theorem answers_bad_of_not_parsed {r : SurveyResponse}
    (h : hasParsedAnswers r = false) : r.answers = AnswersField.bad := by
  unfold hasParsedAnswers at h
  cases hr : r.answers with
  | obj entries => rw [hr] at h; exact absurd h (by simp)
  | bad => rfl

theorem extractAnswer_of_bad {r : SurveyResponse}
    (h : r.answers = AnswersField.bad) (qid : String) :
    extractAnswer r qid = none := by
  unfold extractAnswer rawAnswer
  rw [h]

theorem allAnswersFor_filter_parsed (t qid : String) (rs : List SurveyResponse) :
    allAnswersFor t qid (rs.filter hasParsedAnswers) = allAnswersFor t qid rs := by
  induction rs with
  | nil => rfl
  | cons r rs ih =>
    rw [List.filter_cons]
    by_cases h : hasParsedAnswers r = true
    · rw [if_pos h, allAnswersFor_cons, allAnswersFor_cons, ih]
    · have hf : hasParsedAnswers r = false := by simpa using h
      have hb : r.answers = AnswersField.bad := answers_bad_of_not_parsed hf
      rw [if_neg h, ih, allAnswersFor_cons, extractAnswer_of_bad hb]
      simp

theorem textResponsesFor_filter_parsed (qid : String) (rs : List SurveyResponse) :
    textResponsesFor qid (rs.filter hasParsedAnswers) = textResponsesFor qid rs := by
  induction rs with
  | nil => rfl
  | cons r rs ih =>
    rw [List.filter_cons]
    by_cases h : hasParsedAnswers r = true
    · rw [if_pos h]
      simp only [textResponsesFor, List.filterMap_cons] at *
      rw [ih]
    · have hf : hasParsedAnswers r = false := by simpa using h
      have hb : r.answers = AnswersField.bad := answers_bad_of_not_parsed hf
      rw [if_neg h, ih]
      simp only [textResponsesFor, List.filterMap_cons, extractAnswer_of_bad hb]

theorem allAnswersFor_eq_ofExtracts (t qid : String) (rs : List SurveyResponse) :
    allAnswersFor t qid rs
      = (rs.map (fun r => extractAnswer r qid)).flatMap
          (fun o => match o with
            | some a => if t = "checkbox" then checkboxTokens a else [a]
            | none => []) := by
  induction rs with
  | nil => rfl
  | cons r rs ih =>
    rw [allAnswersFor_cons, List.map_cons, List.flatMap_cons, ih]

theorem textResponsesFor_eq_ofExtracts (qid : String) (rs : List SurveyResponse) :
    textResponsesFor qid rs
      = (rs.map (fun r => extractAnswer r qid)).filterMap id := by
  rw [List.filterMap_map]
  rfl

end SMSAdmin

namespace SMSAdmin

theorem allAnswersFor_checkbox (qid : String) (rs : List SurveyResponse) :
    allAnswersFor "checkbox" qid rs
      = rs.flatMap (fun x =>
          match extractAnswer x qid with
          | some a => checkboxTokens a
          | none => []) := by
  unfold allAnswersFor
  refine congrArg _ (funext fun r => ?_)
  cases extractAnswer r qid <;> simp

theorem count_allAnswersFor_nonCheckbox (t qid s : String)
    (rs : List SurveyResponse) (ht : t ≠ "checkbox") (hs : s ≠ "") :
    (allAnswersFor t qid rs).count s
      = (rs.filter (fun x => rawAnswer x qid = some s)).length := by
  induction rs with
  | nil => rfl
  | cons r rs ih =>
    rw [allAnswersFor_cons, List.count_append, List.filter_cons]
    cases hr : rawAnswer r qid with
    | none =>
      have he : extractAnswer r qid = none := by simp [extractAnswer, hr]
      have hne : ¬rawAnswer r qid = some s := by rw [hr]; exact fun h => by cases h
      rw [he]
      simp [hne, ih]
    | some a =>
      by_cases ha : a = ""
      · have he : extractAnswer r qid = none := by simp [extractAnswer, hr, ha]
        have hne : ¬rawAnswer r qid = some s := by
          rw [hr, ha]
          exact fun h => hs (Option.some.inj h).symm
        have has : ¬a = s := fun h => hs (h ▸ ha)
        rw [he]
        simp [hne, has, ih]
      · have he : extractAnswer r qid = some a := by simp [extractAnswer, hr, ha]
        rw [he]
        by_cases has : a = s
        · have hcond : rawAnswer r qid = some s := by rw [hr, has]
          simp only [if_neg ht, hcond, List.count_cons, List.count_nil, ih]
          simp [has]
          omega
        · have hcond : ¬rawAnswer r qid = some s := by
            rw [hr]
            exact fun h => has (Option.some.inj h)
          simp only [if_neg ht, List.count_cons, List.count_nil, ih]
          simp [has, hcond]

end SMSAdmin

namespace SMSAdmin

theorem getSurvey_eq_none {surveys : List Survey} {sid : Int}
    (h : ∀ s ∈ surveys, s.id ≠ sid) : getSurvey surveys sid = none := by
  unfold getSurvey
  exact List.find?_eq_none.mpr (fun s hsm => by simp [h s hsm])

theorem analytics_error_of_missing {surveys : List Survey}
    (responses : List SurveyResponse) {sid : Int}
    (h : ∀ s ∈ surveys, s.id ≠ sid) :
    getSurveyAnalytics surveys responses sid
      = Except.error ("Survey with ID " ++ toString sid ++ " not found") := by
  unfold getSurveyAnalytics
  rw [getSurvey_eq_none h]

/-- C1: for every surveyId matching no stored survey, `getSurveyAnalytics`
fails with the not-found error and never succeeds with any result object
(in particular never with a zero-count success). -/
theorem analytics_missing_survey_not_found (surveys : List Survey)
    (responses : List SurveyResponse) (sid : Int)
    (h : ∀ s ∈ surveys, s.id ≠ sid) :
    getSurveyAnalytics surveys responses sid
        = Except.error ("Survey with ID " ++ toString sid ++ " not found")
    ∧ ∀ r : SurveyAnalytics,
        getSurveyAnalytics surveys responses sid ≠ Except.ok r := by
  have h1 := analytics_error_of_missing responses h
  exact ⟨h1, fun r hok => Except.noConfusion (h1.symm.trans hok)⟩

/-- Witness for C1 at a concrete store holding one survey with id 2 and a
request for id 1. -/
theorem analytics_missing_survey_not_found_witness :
    (∀ s ∈ [Survey.mk 2 "Customer feedback" (QuestionsField.jsonArray [])],
        s.id ≠ (1 : Int))
    ∧ (getSurveyAnalytics
          [Survey.mk 2 "Customer feedback" (QuestionsField.jsonArray [])] [] 1
          = Except.error ("Survey with ID " ++ toString (1 : Int) ++ " not found")
        ∧ ∀ r : SurveyAnalytics,
            getSurveyAnalytics
              [Survey.mk 2 "Customer feedback" (QuestionsField.jsonArray [])] [] 1
              ≠ Except.ok r) :=
  ⟨by decide, analytics_missing_survey_not_found _ _ _ (by decide)⟩

/-- C2 (the intended behaviour, and the actual divergence): for an
integer id matching no survey, the serverless handler of
`src/api/index.ts` responds 404, but the Express route of
`registerRoutes` catches the error thrown by the storage layer and
responds 500, contradicting the spec's missing-entity rule. -/
theorem analytics_missing_survey_status (surveys : List Survey)
    (responses : List SurveyResponse) (sid : Int)
    (h : ∀ s ∈ surveys, s.id ≠ sid) :
    serverlessAnalyticsStatus surveys responses (some sid) = 404
    ∧ expressAnalyticsStatus surveys responses (some sid) = 500 := by
  constructor
  · simp [serverlessAnalyticsStatus, getSurvey_eq_none h]
  · simp [expressAnalyticsStatus, analytics_error_of_missing responses h]

/-- Witness for C2 at an empty survey store and id 1. -/
theorem analytics_missing_survey_status_witness :
    (∀ s ∈ ([] : List Survey), s.id ≠ (1 : Int))
    ∧ (serverlessAnalyticsStatus [] [] (some 1) = 404
        ∧ expressAnalyticsStatus [] [] (some 1) = 500) :=
  ⟨by decide, analytics_missing_survey_status _ _ _ (by decide)⟩

/-- C5: whenever the aggregation succeeds, `totalResponses` equals the
number of stored response rows whose surveyId matches, regardless of the
rows' answer contents. -/
theorem totalResponses_counts_all_rows (surveys : List Survey)
    (responses : List SurveyResponse) (sid : Int) (r : SurveyAnalytics)
    (h : getSurveyAnalytics surveys responses sid = Except.ok r) :
    r.totalResponses
      = (responses.filter (fun x => x.surveyId = some sid)).length := by
  unfold getSurveyAnalytics at h
  split at h
  · exact Except.noConfusion h
  · split at h
    · exact Except.noConfusion h
    · rw [← Except.ok.inj h]
      rfl

/-- Witness for C5 at a store with one survey and three rows: two rows
(one with unparseable answers) match survey 1, one row belongs to
survey 2; totalResponses is 2. -/
theorem totalResponses_counts_all_rows_witness :
    (getSurveyAnalytics [Survey.mk 1 "T" (QuestionsField.jsonArray [])]
        [SurveyResponse.mk 1 (some 1) (AnswersField.obj [("1", "yes")]),
         SurveyResponse.mk 2 (some 2) (AnswersField.obj []),
         SurveyResponse.mk 3 (some 1) AnswersField.bad] 1
      = Except.ok
          { survey := Survey.mk 1 "T" (QuestionsField.jsonArray [])
            totalResponses := 2
            questionAnalytics := [] })
    ∧ ({ survey := Survey.mk 1 "T" (QuestionsField.jsonArray [])
         totalResponses := 2
         questionAnalytics := [] } : SurveyAnalytics).totalResponses
      = (([SurveyResponse.mk 1 (some 1) (AnswersField.obj [("1", "yes")]),
           SurveyResponse.mk 2 (some 2) (AnswersField.obj []),
           SurveyResponse.mk 3 (some 1) AnswersField.bad]).filter
          (fun x => x.surveyId = some 1)).length :=
  ⟨by rfl,
    totalResponses_counts_all_rows
      [Survey.mk 1 "T" (QuestionsField.jsonArray [])] _ _ _ (by rfl)⟩

end SMSAdmin

namespace SMSAdmin

/-- C9: malformed stored JSON does not fail the aggregation once the
survey exists: an unparseable questions string yields a success with an
empty questionAnalytics sequence and the correct totalResponses, and a
row whose answers do not parse is skipped by every per-question tally
while still being counted by totalResponses. -/
theorem malformed_json_tolerated (surveys : List Survey)
    (responses : List SurveyResponse) (sid : Int) (survey : Survey)
    (hs : getSurvey surveys sid = some survey)
    (hq : survey.questions = QuestionsField.badString) :
    getSurveyAnalytics surveys responses sid
      = Except.ok
          { survey := survey
            totalResponses :=
              (responses.filter (fun x => x.surveyId = some sid)).length
            questionAnalytics := [] }
    ∧ ∀ q idx rs, analyzeQuestion q idx rs
        = analyzeQuestion q idx (rs.filter hasParsedAnswers) := by
  constructor
  · simp [getSurveyAnalytics, hs, hq, parsedQuestions, responsesFor]
  · intro q idx rs
    exact analyzeQuestion_congr q idx _ _
      (allAnswersFor_filter_parsed _ _ rs).symm
      (textResponsesFor_filter_parsed _ rs).symm

/-- Witness for C9: a survey whose questions string fails to parse, one
parseable and one unparseable response row. -/
theorem malformed_json_tolerated_witness :
    (getSurvey [Survey.mk 1 "T" QuestionsField.badString] 1
        = some (Survey.mk 1 "T" QuestionsField.badString))
    ∧ ((Survey.mk 1 "T" QuestionsField.badString).questions
        = QuestionsField.badString)
    ∧ (getSurveyAnalytics [Survey.mk 1 "T" QuestionsField.badString]
          [SurveyResponse.mk 1 (some 1) (AnswersField.obj [("1", "ok")]),
           SurveyResponse.mk 2 (some 1) AnswersField.bad] 1
        = Except.ok
            { survey := Survey.mk 1 "T" QuestionsField.badString
              totalResponses :=
                (([SurveyResponse.mk 1 (some 1) (AnswersField.obj [("1", "ok")]),
                   SurveyResponse.mk 2 (some 1) AnswersField.bad]).filter
                  (fun x => x.surveyId = some 1)).length
              questionAnalytics := [] }
        ∧ ∀ q idx rs, analyzeQuestion q idx rs
            = analyzeQuestion q idx (rs.filter hasParsedAnswers)) :=
  ⟨rfl, rfl,
    malformed_json_tolerated [Survey.mk 1 "T" QuestionsField.badString]
      _ _ _ rfl rfl⟩

/-- C10: an answer that is absent or empty contributes nothing to the
question's tally or textResponses (the row is treated as unanswered for
that question), and for checkbox questions a comma-separated token that
trims to the empty string is dropped: the empty string never carries a
count. -/
theorem empty_answer_ignored (q : Question) (idx : Nat)
    (rs₁ rs₂ : List SurveyResponse) (r : SurveyResponse)
    (h : rawAnswer r (questionIdOf idx) = none
        ∨ rawAnswer r (questionIdOf idx) = some "") :
    analyzeQuestion q idx (rs₁ ++ r :: rs₂) = analyzeQuestion q idx (rs₁ ++ rs₂)
    ∧ (questionTypeOf q = "checkbox" →
        ∀ rs, keyCount (analyzeQuestion q idx rs).responses "" = 0) := by
  have he : extractAnswer r (questionIdOf idx) = none := by
    rcases h with h | h <;> simp [extractAnswer, h]
  constructor
  · apply analyzeQuestion_congr
    · rw [show rs₁ ++ r :: rs₂ = rs₁ ++ [r] ++ rs₂ from by simp]
      rw [allAnswersFor_append, allAnswersFor_append, allAnswersFor_append,
        allAnswersFor_cons, he]
      simp [allAnswersFor]
    · rw [show rs₁ ++ r :: rs₂ = rs₁ ++ [r] ++ rs₂ from by simp]
      rw [textResponsesFor_append, textResponsesFor_append,
        textResponsesFor_append]
      simp [textResponsesFor, List.filterMap_cons, he]
  · intro hty rs
    rw [keyCount_responses, hty, allAnswersFor_checkbox]
    rw [List.count_eq_zero]
    intro hmem
    rw [List.mem_flatMap] at hmem
    obtain ⟨x, hx, hmem⟩ := hmem
    cases hex : extractAnswer x (questionIdOf idx) with
    | none =>
      rw [hex] at hmem
      exact absurd hmem (List.not_mem_nil _)
    | some a =>
      rw [hex] at hmem
      unfold checkboxTokens at hmem
      rw [List.mem_filter] at hmem
      exact absurd hmem.2 (by simp)

/-- Witness for C10: a checkbox question and a row whose stored answer
for it is the empty string. -/
theorem empty_answer_ignored_witness :
    (rawAnswer (SurveyResponse.mk 1 (some 1) (AnswersField.obj [("1", "")]))
        (questionIdOf 0) = none
      ∨ rawAnswer (SurveyResponse.mk 1 (some 1) (AnswersField.obj [("1", "")]))
          (questionIdOf 0) = some "")
    ∧ (analyzeQuestion (Question.mk (some "Pick") none (some "checkbox") none) 0
          ([] ++ SurveyResponse.mk 1 (some 1) (AnswersField.obj [("1", "")]) :: [])
        = analyzeQuestion (Question.mk (some "Pick") none (some "checkbox") none) 0
            ([] ++ [])
      ∧ (questionTypeOf (Question.mk (some "Pick") none (some "checkbox") none)
            = "checkbox" →
          ∀ rs, keyCount
            (analyzeQuestion
              (Question.mk (some "Pick") none (some "checkbox") none) 0 rs).responses
            "" = 0)) :=
  ⟨by right; rfl, empty_answer_ignored _ _ [] [] _ (by right; rfl)⟩

end SMSAdmin

namespace SMSAdmin

theorem getSurveyAnalytics_eq_ok {surveys : List Survey}
    (responses : List SurveyResponse) {sid : Int} {survey : Survey}
    {qs : List Question}
    (hs : getSurvey surveys sid = some survey)
    (hq : parsedQuestions survey.questions = some qs) :
    getSurveyAnalytics surveys responses sid
      = Except.ok
          { survey := survey
            totalResponses := (responsesFor responses sid).length
            questionAnalytics :=
              qs.mapIdx (fun i q =>
                analyzeQuestion q i (responsesFor responses sid)) } := by
  simp only [getSurveyAnalytics, hs, hq]

/-- C8: the analytics output lists one entry per question of the survey
in stored order, analysing the question at 0-based index i under the
1-based questionId (i+1).toString(); every entry's questionId is that
decimal string, and an entry depends on the stored answers only through
the lookups under exactly that stringified-position key. -/
theorem question_entries_positional (surveys : List Survey)
    (responses : List SurveyResponse) (sid : Int) (survey : Survey)
    (qs : List Question) (r : SurveyAnalytics)
    (hs : getSurvey surveys sid = some survey)
    (hq : parsedQuestions survey.questions = some qs)
    (hr : getSurveyAnalytics surveys responses sid = Except.ok r) :
    r.questionAnalytics
        = qs.mapIdx (fun i q => analyzeQuestion q i (responsesFor responses sid))
    ∧ r.questionAnalytics.length = qs.length
    ∧ (∀ (i : Nat) (q : Question) (rs : List SurveyResponse),
        (analyzeQuestion q i rs).questionId = toString (i + 1))
    ∧ ∀ (q : Question) (idx : Nat) (rs₁ rs₂ : List SurveyResponse),
        rs₁.map (fun x => extractAnswer x (questionIdOf idx))
          = rs₂.map (fun x => extractAnswer x (questionIdOf idx)) →
        analyzeQuestion q idx rs₁ = analyzeQuestion q idx rs₂ := by
  have hok := getSurveyAnalytics_eq_ok responses hs hq
  have hrec := Except.ok.inj (hok.symm.trans hr)
  refine ⟨by rw [← hrec], by rw [← hrec]; exact List.length_mapIdx, ?_, ?_⟩
  · intro i q rs
    rfl
  · intro q idx rs₁ rs₂ hmap
    apply analyzeQuestion_congr
    · rw [allAnswersFor_eq_ofExtracts, allAnswersFor_eq_ofExtracts, hmap]
    · rw [textResponsesFor_eq_ofExtracts, textResponsesFor_eq_ofExtracts, hmap]

/-- Witness for C8: one survey with a single rating question and one
response answering it under key "1". -/
theorem question_entries_positional_witness :
    (getSurvey
        [Survey.mk 1 "S"
          (QuestionsField.jsonArray [Question.mk (some "Q1") none (some "rating") none])] 1
      = some (Survey.mk 1 "S"
          (QuestionsField.jsonArray [Question.mk (some "Q1") none (some "rating") none])))
    ∧ (parsedQuestions
        (Survey.mk 1 "S"
          (QuestionsField.jsonArray [Question.mk (some "Q1") none (some "rating") none])).questions
      = some [Question.mk (some "Q1") none (some "rating") none])
    ∧ (getSurveyAnalytics
        [Survey.mk 1 "S"
          (QuestionsField.jsonArray [Question.mk (some "Q1") none (some "rating") none])]
        [SurveyResponse.mk 1 (some 1) (AnswersField.obj [("1", "5")])] 1
      = Except.ok
          { survey := Survey.mk 1 "S"
              (QuestionsField.jsonArray [Question.mk (some "Q1") none (some "rating") none])
            totalResponses :=
              (responsesFor [SurveyResponse.mk 1 (some 1) (AnswersField.obj [("1", "5")])] 1).length
            questionAnalytics :=
              ([Question.mk (some "Q1") none (some "rating") none]).mapIdx
                (fun i q => analyzeQuestion q i
                  (responsesFor [SurveyResponse.mk 1 (some 1) (AnswersField.obj [("1", "5")])] 1)) })
    ∧ (({ survey := Survey.mk 1 "S"
            (QuestionsField.jsonArray [Question.mk (some "Q1") none (some "rating") none])
          totalResponses :=
            (responsesFor [SurveyResponse.mk 1 (some 1) (AnswersField.obj [("1", "5")])] 1).length
          questionAnalytics :=
            ([Question.mk (some "Q1") none (some "rating") none]).mapIdx
              (fun i q => analyzeQuestion q i
                (responsesFor [SurveyResponse.mk 1 (some 1) (AnswersField.obj [("1", "5")])] 1)) } : SurveyAnalytics).questionAnalytics
        = ([Question.mk (some "Q1") none (some "rating") none]).mapIdx
            (fun i q => analyzeQuestion q i
              (responsesFor [SurveyResponse.mk 1 (some 1) (AnswersField.obj [("1", "5")])] 1))
      ∧ ({ survey := Survey.mk 1 "S"
             (QuestionsField.jsonArray [Question.mk (some "Q1") none (some "rating") none])
           totalResponses :=
             (responsesFor [SurveyResponse.mk 1 (some 1) (AnswersField.obj [("1", "5")])] 1).length
           questionAnalytics :=
             ([Question.mk (some "Q1") none (some "rating") none]).mapIdx
               (fun i q => analyzeQuestion q i
                 (responsesFor [SurveyResponse.mk 1 (some 1) (AnswersField.obj [("1", "5")])] 1)) } : SurveyAnalytics).questionAnalytics.length
          = ([Question.mk (some "Q1") none (some "rating") none]).length
      ∧ (∀ (i : Nat) (q : Question) (rs : List SurveyResponse),
          (analyzeQuestion q i rs).questionId = toString (i + 1))
      ∧ ∀ (q : Question) (idx : Nat) (rs₁ rs₂ : List SurveyResponse),
          rs₁.map (fun x => extractAnswer x (questionIdOf idx))
            = rs₂.map (fun x => extractAnswer x (questionIdOf idx)) →
          analyzeQuestion q idx rs₁ = analyzeQuestion q idx rs₂) :=
  ⟨rfl, rfl, rfl,
    question_entries_positional
      [Survey.mk 1 "S"
        (QuestionsField.jsonArray [Question.mk (some "Q1") none (some "rating") none])]
      _ _ _ _ _ rfl rfl rfl⟩

end SMSAdmin

namespace SMSAdmin

/-- C4: for a checkbox question the stored answer string is split on
commas and each trimmed non-empty token is counted separately; in
particular a response whose stored answer is "A, B" contributes one to
the count of "A" and one to the count of "B". -/
theorem checkbox_tokens_counted (q : Question) (idx : Nat)
    (rs : List SurveyResponse) (r : SurveyResponse)
    (hty : questionTypeOf q = "checkbox")
    (hr : extractAnswer r (questionIdOf idx) = some "A, B") :
    (∀ t, keyCount (analyzeQuestion q idx rs).responses t
        = (rs.flatMap (fun x =>
            match extractAnswer x (questionIdOf idx) with
            | some a => checkboxTokens a
            | none => [])).count t)
    ∧ keyCount (analyzeQuestion q idx (rs ++ [r])).responses "A"
        = keyCount (analyzeQuestion q idx rs).responses "A" + 1
    ∧ keyCount (analyzeQuestion q idx (rs ++ [r])).responses "B"
        = keyCount (analyzeQuestion q idx rs).responses "B" + 1 := by
  have hgen : ∀ (rs' : List SurveyResponse) (t : String),
      keyCount (analyzeQuestion q idx rs').responses t
        = (rs'.flatMap (fun x =>
            match extractAnswer x (questionIdOf idx) with
            | some a => checkboxTokens a
            | none => [])).count t := by
    intro rs' t
    rw [keyCount_responses, hty, allAnswersFor_checkbox]
  have hsingle : ([r] : List SurveyResponse).flatMap (fun x =>
      match extractAnswer x (questionIdOf idx) with
      | some a => checkboxTokens a
      | none => []) = checkboxTokens "A, B" := by
    simp [hr]
  refine ⟨hgen rs, ?_, ?_⟩
  · rw [hgen, hgen, List.flatMap_append, List.count_append, hsingle,
      show checkboxTokens "A, B" = ["A", "B"] from by decide,
      show (["A", "B"] : List String).count "A" = 1 from by decide]
  · rw [hgen, hgen, List.flatMap_append, List.count_append, hsingle,
      show checkboxTokens "A, B" = ["A", "B"] from by decide,
      show (["A", "B"] : List String).count "B" = 1 from by decide]

/-- Witness for C4: a checkbox question at position 1 and a response
answering it with "A, B". -/
theorem checkbox_tokens_counted_witness :
    (questionTypeOf (Question.mk (some "Pick") none (some "checkbox") none)
        = "checkbox")
    ∧ (extractAnswer (SurveyResponse.mk 1 (some 1) (AnswersField.obj [("1", "A, B")]))
        (questionIdOf 0) = some "A, B")
    ∧ ((∀ t, keyCount
          (analyzeQuestion (Question.mk (some "Pick") none (some "checkbox") none)
            0 []).responses t
        = (([] : List SurveyResponse).flatMap (fun x =>
            match extractAnswer x (questionIdOf 0) with
            | some a => checkboxTokens a
            | none => [])).count t)
      ∧ keyCount
          (analyzeQuestion (Question.mk (some "Pick") none (some "checkbox") none)
            0 ([] ++ [SurveyResponse.mk 1 (some 1) (AnswersField.obj [("1", "A, B")])])).responses "A"
        = keyCount
            (analyzeQuestion (Question.mk (some "Pick") none (some "checkbox") none)
              0 []).responses "A" + 1
      ∧ keyCount
          (analyzeQuestion (Question.mk (some "Pick") none (some "checkbox") none)
            0 ([] ++ [SurveyResponse.mk 1 (some 1) (AnswersField.obj [("1", "A, B")])])).responses "B"
        = keyCount
            (analyzeQuestion (Question.mk (some "Pick") none (some "checkbox") none)
              0 []).responses "B" + 1) :=
  ⟨by decide, by decide,
    checkbox_tokens_counted _ 0 [] _ (by decide) (by decide)⟩

/-- C6: for a multiple-choice question, if exactly N stored responses
give the option string s as their answer to that question, the
aggregated count reported for s equals N (the length of the matching-row
filter). -/
theorem multiple_choice_count (q : Question) (idx : Nat)
    (rs : List SurveyResponse) (s : String)
    (hty : questionTypeOf q = "multiple_choice")
    (hs : s ≠ "") :
    keyCount (analyzeQuestion q idx rs).responses s
      = (rs.filter (fun x => rawAnswer x (questionIdOf idx) = some s)).length := by
  rw [keyCount_responses, hty]
  exact count_allAnswersFor_nonCheckbox _ _ _ _ (by decide) hs

/-- Witness for C6: three responses to a multiple-choice question, two
answering "Red"; the reported count of "Red" is 2. -/
theorem multiple_choice_count_witness :
    (questionTypeOf
        (Question.mk (some "Color") none (some "multiple_choice")
          (some ["Red", "Blue"])) = "multiple_choice")
    ∧ ("Red" ≠ "")
    ∧ keyCount
        (analyzeQuestion
          (Question.mk (some "Color") none (some "multiple_choice")
            (some ["Red", "Blue"])) 0
          [SurveyResponse.mk 1 (some 1) (AnswersField.obj [("1", "Red")]),
           SurveyResponse.mk 2 (some 1) (AnswersField.obj [("1", "Blue")]),
           SurveyResponse.mk 3 (some 1) (AnswersField.obj [("1", "Red")])]).responses "Red"
      = (([SurveyResponse.mk 1 (some 1) (AnswersField.obj [("1", "Red")]),
           SurveyResponse.mk 2 (some 1) (AnswersField.obj [("1", "Blue")]),
           SurveyResponse.mk 3 (some 1) (AnswersField.obj [("1", "Red")])]).filter
          (fun x => rawAnswer x (questionIdOf 0) = some "Red")).length :=
  ⟨by decide, by decide,
    multiple_choice_count _ 0 _ "Red" (by decide) (by decide)⟩

end SMSAdmin

namespace SMSAdmin

theorem allAnswersFor_nonCheckbox (t qid : String) (rs : List SurveyResponse)
    (ht : t ≠ "checkbox") :
    allAnswersFor t qid rs
      = rs.flatMap (fun x =>
          match extractAnswer x qid with
          | some a => [a]
          | none => []) := by
  unfold allAnswersFor
  refine congrArg _ (funext fun r => ?_)
  cases extractAnswer r qid <;> simp [ht]

/-- C3 counterexample: a text question's answers are tallied into the
responses field as well, so the per-answer count tally is not produced
only for non-text question types — here a text question with one answer
"hello" reports a non-empty tally. -/
theorem text_question_tally_counterexample :
    (analyzeQuestion (Question.mk (some "Q") none (some "text") none) 0
        [SurveyResponse.mk 1 (some 1) (AnswersField.obj [("1", "hello")])]).responses
      = [("hello", 1)]
    ∧ (analyzeQuestion (Question.mk (some "Q") none (some "text") none) 0
        [SurveyResponse.mk 1 (some 1) (AnswersField.obj [("1", "hello")])]).textResponses
      = some ["hello"]
    ∧ ([("hello", 1)] : List (String × Nat)) ≠ [] :=
  ⟨by decide, by decide, by decide⟩

/-- C3 amended: for text/textarea questions the aggregator collects raw
answer strings capped at 10 into textResponses and, in addition,
produces the exact-string count tally in the responses field — counting
applies to every question type (with comma-splitting only for checkbox);
only the textResponses field is restricted to text types. -/
theorem text_question_analytics (q : Question) (idx : Nat)
    (rs : List SurveyResponse)
    (hty : questionTypeOf q = "text" ∨ questionTypeOf q = "textarea") :
    (analyzeQuestion q idx rs).textResponses
        = some ((textResponsesFor (questionIdOf idx) rs).take 10)
    ∧ (analyzeQuestion q idx rs).responses
        = sortByCountDesc (jsObjectEntries (tally
            (rs.flatMap (fun x =>
              match extractAnswer x (questionIdOf idx) with
              | some a => [a]
              | none => []))))
    ∧ ∀ (q2 : Question) (idx2 : Nat) (rs2 : List SurveyResponse),
        questionTypeOf q2 ≠ "text" → questionTypeOf q2 ≠ "textarea" →
        (analyzeQuestion q2 idx2 rs2).textResponses = none := by
  have hne : questionTypeOf q ≠ "checkbox" := by
    rcases hty with h | h <;> rw [h] <;> decide
  refine ⟨?_, ?_, ?_⟩
  · simp only [analyzeQuestion]
    rcases hty with h | h <;> rw [h] <;> simp
  · rw [responses_def, allAnswersFor_nonCheckbox _ _ _ hne]
  · intro q2 idx2 rs2 h1 h2
    simp [analyzeQuestion, h1, h2]

/-- Witness for the amended C3 at a textarea question with one response. -/
theorem text_question_analytics_witness :
    (questionTypeOf (Question.mk (some "Say more") none (some "textarea") none)
        = "text"
      ∨ questionTypeOf (Question.mk (some "Say more") none (some "textarea") none)
        = "textarea")
    ∧ ((analyzeQuestion (Question.mk (some "Say more") none (some "textarea") none) 0
          [SurveyResponse.mk 1 (some 1) (AnswersField.obj [("1", "fine")])]).textResponses
        = some ((textResponsesFor (questionIdOf 0)
            [SurveyResponse.mk 1 (some 1) (AnswersField.obj [("1", "fine")])]).take 10)
      ∧ (analyzeQuestion (Question.mk (some "Say more") none (some "textarea") none) 0
          [SurveyResponse.mk 1 (some 1) (AnswersField.obj [("1", "fine")])]).responses
        = sortByCountDesc (jsObjectEntries (tally
            (([SurveyResponse.mk 1 (some 1) (AnswersField.obj [("1", "fine")])]).flatMap
              (fun x =>
                match extractAnswer x (questionIdOf 0) with
                | some a => [a]
                | none => []))))
      ∧ ∀ (q2 : Question) (idx2 : Nat) (rs2 : List SurveyResponse),
          questionTypeOf q2 ≠ "text" → questionTypeOf q2 ≠ "textarea" →
          (analyzeQuestion q2 idx2 rs2).textResponses = none) :=
  ⟨by decide,
    text_question_analytics (Question.mk (some "Say more") none (some "textarea") none)
      0 _ (by decide)⟩

/-- C7 counterexample: with equal counts, the integer-like answers "10"
and "2" are reported in ascending numeric key order ("2" before "10"),
not in the first-seen order of the tally mapping ("10" before "2"),
because JavaScript objects enumerate array-index keys numerically
first. -/
theorem tie_order_counterexample :
    (analyzeQuestion (Question.mk (some "R") none (some "rating") none) 0
        [SurveyResponse.mk 1 (some 1) (AnswersField.obj [("1", "10")]),
         SurveyResponse.mk 2 (some 1) (AnswersField.obj [("1", "2")])]).responses
      = [("2", 1), ("10", 1)]
    ∧ tally (allAnswersFor "rating" (questionIdOf 0)
        [SurveyResponse.mk 1 (some 1) (AnswersField.obj [("1", "10")]),
         SurveyResponse.mk 2 (some 1) (AnswersField.obj [("1", "2")])])
      = [("10", 1), ("2", 1)]
    ∧ ([("2", 1), ("10", 1)] : List (String × Nat)) ≠ [("10", 1), ("2", 1)] :=
  ⟨by decide, by decide, by decide⟩

/-- C7 amended: the responses sequence is sorted by count descending,
and entries with equal counts appear in the enumeration order of the
tally object — array-index keys first in ascending numeric order, then
the remaining keys in first-seen insertion order — rather than in plain
first-seen order. -/
theorem responses_sorted_stable (q : Question) (idx : Nat)
    (rs : List SurveyResponse) :
    (analyzeQuestion q idx rs).responses.Pairwise (fun a b => b.2 ≤ a.2)
    ∧ ∀ c : Nat,
        (analyzeQuestion q idx rs).responses.filter (fun p => p.2 = c)
          = (jsObjectEntries (tally
              (allAnswersFor (questionTypeOf q) (questionIdOf idx) rs))).filter
              (fun p => p.2 = c) := by
  constructor
  · rw [responses_def]
    exact pairwise_sortByCountDesc _
  · intro c
    rw [responses_def]
    exact filter_sortByCountDesc _ c

end SMSAdmin
